import Mathlib

/-!
Shallow embedding of the tp-email-verification-tool email-validation service
(`email-validation-service/app`): the validation pipeline
(`services/validator.py`), the DNS-only validator (`services/dns_validator.py`),
the circuit breaker (`services/circuit_breaker.py`), the batch splitter
(`utils/batch_utils.py`) and the worker progress loop (`worker.py`),
together with theorems checking the specification claims against them.

Conventions of the embedding:
* Network-derived values (DNS answers, SMTP responses, blacklist verdicts,
  timeouts) are inputs, collected in explicit environment structures.
* Python decimal float literals used by the confidence scoring (all multiples
  of 0.05) are represented exactly as integer hundredths.
* Python dicts with string keys are association lists; Python string
  operations (split, lower, substring membership) are re-implemented over
  `List Char`.
* SMTP connection attempts are tracked in an explicit trace so that
  "no probe is issued" claims become statements about the trace.
-/

/-- Tests whether `p` is a prefix of `l` (on char lists). -/
def charsMatchFront (p l : List Char) : Bool :=
  l.take p.length = p

/-- Tests whether `p` occurs as a contiguous sublist of `l`. -/
def charsOccur (p : List Char) : List Char → Bool
  | [] => charsMatchFront p []
  | c :: cs => charsMatchFront p (c :: cs) || charsOccur p cs

/-- Python `needle in hay` on strings (substring test). -/
def pyInStr (needle hay : String) : Bool :=
  charsOccur needle.toList hay.toList

/-- Python `s.lower()` (the source only lowercases ASCII identifiers). -/
def pyLower (s : String) : String :=
  String.mk (s.toList.map Char.toLower)

/-- Python `s.split(sep)` for a one-character separator. -/
def pySplitChar (sep : Char) : List Char → List (List Char)
  | [] => [[]]
  | c :: cs =>
    let rest := pySplitChar sep cs
    if c = sep then [] :: rest
    else
      match rest with
      | [] => [[c]]
      | r :: rs => (c :: r) :: rs

/-- Python `s.split(sep)` returning strings. -/
def pySplit (sep : Char) (s : String) : List String :=
  (pySplitChar sep s.toList).map String.mk

/-- Python `s.startswith(p)`. -/
def pyStartsWith (p s : String) : Bool :=
  (s.toList.take p.toList.length) = p.toList

/-- Python `s.rstrip(".")`. -/
def pyRstripDot (s : String) : String :=
  String.mk ((s.toList.reverse.dropWhile (fun c => c = '.')).reverse)

/-- Lookup in an association list modelling a Python dict. -/
def dictGet (m : List (String × String)) (k : String) : Option String :=
  (m.find? (fun p => p.1 = k)).map Prod.snd

/-- Python `d[k] = v` on a string dict modelled as an association list. -/
def dictSet (m : List (String × String)) (k v : String) : List (String × String) :=
  if (m.find? (fun p => p.1 = k)).isSome then
    m.map (fun p => if p.1 = k then (k, v) else p)
  else
    m ++ [(k, v)]

/-- Embeds `app/models/validation.py::ValidationStatus`. -/
inductive ValidationStatus
  | deliverable
  | undeliverable
  | risky
  | unknown
deriving DecidableEq, Repr

/-- The sub-status reason enums of `app/models/validation.py`
(`UndeliverableReason`, `RiskyReason`, `UnknownReason`), merged into one type
since the source stores them in the single `sub_status` field. -/
inductive SubStatus
  | invalidEmail
  | invalidDomain
  | rejectedEmail
  | invalidSmtp
  | disposableEmail
  | blacklisted
  | lowQuality
  | lowDeliverability
  | noConnect
  | timeoutReason
  | unavailableSmtp
  | unexpectedError
deriving DecidableEq, Repr

/-- Embeds `app/models/validation.py::EmailAttributes` (all fields default `False`). -/
structure EmailAttributes where
  free_email : Bool := false
  role_account : Bool := false
  disposable : Bool := false
  catch_all : Bool := false
  has_plus_tag : Bool := false
  mailbox_full : Bool := false
  no_reply : Bool := false
deriving DecidableEq, Repr

/-- Embeds `app/models/validation.py::MailServerInfo`. -/
structure MailServerInfo where
  smtp_provider : Option String := none
  mx_record : Option String := none
  implicit_mx : Option String := none
deriving DecidableEq, Repr

/-- Embeds `app/models/validation.py::BlacklistInfo`. -/
structure BlacklistInfo where
  is_blacklisted : Bool := false
  blacklists_found : List String := []
  blacklist_reasons : List String := []
  reputation_score : Nat := 100
  last_checked : Option String := none
deriving DecidableEq, Repr

/-- Embeds `app/models/validation.py::ValidationDetails`; `general` is the Python
dict that starts as `{"domain": "", "reason": ""}`. -/
structure ValidationDetails where
  general : List (String × String) := [("domain", ""), ("reason", "")]
  attributes : EmailAttributes := {}
  mail_server : MailServerInfo := {}
  blacklist : BlacklistInfo := {}
  sub_status : Option SubStatus := none
deriving DecidableEq, Repr

/-- Embeds `app/models/validation.py::EmailValidationResult` (defaults
`risk_level="high"`, `deliverability_score=0`). -/
structure EmailValidationResult where
  email : String
  is_valid : Bool
  status : ValidationStatus
  risk_level : String := ("high")
  deliverability_score : Int := 0
  details : ValidationDetails := {}
deriving DecidableEq, Repr

/-! ## Circuit breaker (`app/services/circuit_breaker.py`)

The Redis-held state is modelled as one record; a `record_smtp_timeout`
transaction is one pure state transition (the optimistic WATCH/MULTI retry
loop serialises concurrent writers, so its sequential semantics is a single
read-modify-write).  Key TTLs are not part of the value model. -/

/-- The Redis keys of `CircuitBreaker`, as one record:
`smtp_timeout_failures`, `smtp_circuit_status` (here a Bool, `open?`),
`smtp_last_timeout`, `smtp_total_timeouts_historical`,
`smtp_total_dns_fallbacks_historical`. -/
structure CircuitBreakerState where
  failures : Nat := 0
  isOpenStatus : Bool := false
  last_timeout : Option String := none
  total_timeouts : Nat := 0
  total_dns_fallbacks : Nat := 0
deriving DecidableEq, Repr

/-- Embeds `CircuitBreaker.failure_threshold` (hardcoded 10 in `__init__`). -/
def failure_threshold : Nat := 10

/-- Embeds `CircuitBreaker.record_smtp_timeout`: increment the consecutive-failure
counter and the lifetime timeout counter, stamp the failure time, and open
the circuit when the new count reaches the threshold and the circuit is not
already open. -/
def record_smtp_timeout (now : String) (s : CircuitBreakerState) : CircuitBreakerState :=
  let new_failure_count := s.failures + 1
  { s with
    failures := new_failure_count
    last_timeout := some now
    total_timeouts := s.total_timeouts + 1
    isOpenStatus :=
      if new_failure_count ≥ failure_threshold ∧ s.isOpenStatus ≠ true then true
      else s.isOpenStatus }

/-- Embeds `CircuitBreaker.reset`: set the failure counter to 0 and the status to
closed; no other key is written. -/
def circuitReset (s : CircuitBreakerState) : CircuitBreakerState :=
  { s with failures := 0, isOpenStatus := false }

/-- Embeds `CircuitBreaker.record_dns_fallback`. -/
def record_dns_fallback (s : CircuitBreakerState) : CircuitBreakerState :=
  { s with total_dns_fallbacks := s.total_dns_fallbacks + 1 }

/-- Embeds `CircuitBreaker.is_open`: `DNS_ONLY_MODE_ENABLED` forces open, otherwise
the stored status decides. -/
def circuit_is_open (dnsOnlyMode : Bool) (s : CircuitBreakerState) : Bool :=
  dnsOnlyMode || s.isOpenStatus

/-- The dictionary returned by `CircuitBreaker.get_metrics`. -/
structure CircuitBreakerMetrics where
  status : String
  consecutive_smtp_timeouts : Nat
  total_timeouts : Nat
  total_dns_fallbacks : Nat
  last_timeout : Option String
  timeout_threshold : Nat
deriving DecidableEq, Repr

/-- Embeds `CircuitBreaker.get_metrics`. -/
def get_metrics (s : CircuitBreakerState) : CircuitBreakerMetrics :=
  { status := if s.isOpenStatus then ("open") else ("closed")
    consecutive_smtp_timeouts := s.failures
    total_timeouts := s.total_timeouts
    total_dns_fallbacks := s.total_dns_fallbacks
    last_timeout := s.last_timeout
    timeout_threshold := failure_threshold }

/-- A sequence of `record_smtp_timeout` events (timestamps given by `ts`). -/
def recordTimeouts (ts : Nat → String) : Nat → CircuitBreakerState → CircuitBreakerState
  | 0, s => s
  | n + 1, s => record_smtp_timeout (ts n) (recordTimeouts ts n s)

/-! ## Batch splitting (`app/utils/batch_utils.py`) -/

/-- The Python slice loop `[xs[i:i+k] for i in range(0, len(xs), k)]`
(for `k > 0`; with `xs = []` the range is empty and the result is `[]`). -/
def sliceChunks (k : Nat) (xs : List α) : List (List α) :=
  if h : k = 0 ∨ xs.length = 0 then []
  else xs.take k :: sliceChunks k (xs.drop k)
termination_by xs.length
decreasing_by
  simp only [not_or] at h
  have hk : 0 < k := Nat.pos_of_ne_zero h.1
  have hx : 0 < xs.length := Nat.pos_of_ne_zero h.2
  simpa using Nat.sub_lt hx hk

/-- Embeds `batch_utils.split_into_batches`: tiered batch sizing, then slicing. -/
def split_into_batches (emails : List α) : List (List α) :=
  let total_emails := emails.length
  if total_emails ≤ 20 then [emails]
  else
    let batch_size :=
      if total_emails ≤ 100 then 30
      else if total_emails ≤ 200 then 50
      else if total_emails ≤ 500 then 100
      else if total_emails ≤ 1000 then 150
      else 200
    sliceChunks batch_size emails

/-- The per-tier cap on batch sizes asserted by the spec (a batch of `n ≤ 20`
emails is returned whole, so its cap is `n`). -/
def tierCap (n : Nat) : Nat :=
  if n ≤ 20 then n
  else if n ≤ 100 then 30
  else if n ≤ 200 then 50
  else if n ≤ 500 then 100
  else if n ≤ 1000 then 150
  else 200

/-! ## The SMTP validation pipeline (`app/services/validator.py`)

`EmailValidator` constants from `__init__`, then the pipeline.  Every network
observation (DNS answers, SMTP server behaviour, blacklist verdicts) is an
input collected in `ValidatorEnv`; SMTP connection attempts are counted in a
`SmtpTrace`. -/

/-- Embeds `EmailValidator.free_email_providers`. -/
def free_email_providers : List String :=
  ["gmail.com", "yahoo.com", "hotmail.com", "outlook.com", "aol.com",
   "icloud.com", "protonmail.com", "zoho.com", "yandex.com"]

/-- Embeds `EmailValidator.role_prefixes`. -/
def role_prefixes : List String :=
  ["admin", "administrator", "support", "help", "info", "contact",
   "sales", "marketing", "billing", "accounts", "abuse", "postmaster"]

/-- Embeds `EmailValidator.disposable_domains`. -/
def disposable_domains : List String :=
  ["tempmail.com", "throwawaymail.com", "mailinator.com",
   "tempmail.net", "disposablemail.com"]

/-- Embeds `EmailValidator.smtp_providers` (dict iterated in insertion order). -/
def smtp_providers : List (String × List String) :=
  [("google", ["google", "gmail"]),
   ("microsoft", ["outlook", "hotmail", "microsoft"]),
   ("yahoo", ["yahoo"]),
   ("aol", ["aol"]),
   ("proton", ["proton"]),
   ("zoho", ["zoho"]),
   ("yandex", ["yandex"])]

/-- Characters of the local-part regex `^[a-zA-Z0-9._%+-]+$`. -/
def isLocalChar (c : Char) : Bool :=
  c.isAlphanum || c = '.' || c = '_' || c = '%' || c = '+' || c = '-'

/-- Characters of the class `[a-zA-Z0-9-]`. -/
def isLabelChar (c : Char) : Bool :=
  c.isAlphanum || c = '-'

/-- The regex `^[a-zA-Z0-9._%+-]+$` of `_validate_format` (the `$`-matches-
before-trailing-newline quirk of Python regexes is not modelled; no claim
touches it). -/
def matchesLocalRe (l : List Char) : Bool :=
  !l.isEmpty && l.all isLocalChar

/-- The leading group `[a-zA-Z0-9][a-zA-Z0-9-]{0,61}[a-zA-Z0-9]` of the
domain regex: 2 to 63 characters, alphanumeric at both ends, label
characters in between. -/
def matchesFirstLabelRe (l : List Char) : Bool :=
  2 ≤ l.length && l.length ≤ 63 &&
  (match l.head? with | some c => c.isAlphanum | none => false) &&
  (match l.getLast? with | some c => c.isAlphanum | none => false) &&
  ((l.drop 1).dropLast.all isLabelChar)

/-- One group `\.[a-zA-Z]{2,}` of the domain regex (the part after the dot). -/
def matchesTldRe (l : List Char) : Bool :=
  2 ≤ l.length && l.all Char.isAlpha

/-- The domain regex `^[a-zA-Z0-9][a-zA-Z0-9-]{0,61}[a-zA-Z0-9](?:\.[a-zA-Z]{2,})+$`
of `_validate_format`, decomposed along the dots. -/
def matchesDomainRe (d : List Char) : Bool :=
  match pySplitChar '.' d with
  | [] => false
  | l :: rest => matchesFirstLabelRe l && !rest.isEmpty && rest.all matchesTldRe

/-- Embeds `email.split("@")`, unpacked into exactly a local part and a domain
(`None` models the `ValueError` of an unpacking failure). -/
def pySplitAt2 (email : String) : Option (String × String) :=
  match pySplit '@' email with
  | [local_part, domain] => some (local_part, domain)
  | _ => none

/-- Embeds `EmailValidator._validate_format`. -/
def _validate_format (email : String) : Bool :=
  match pySplitAt2 email with
  | none => false
  | some (local_part, domain) =>
    !(local_part = ("") || domain = ("")) &&
    !(local_part.toList.length > 64 || domain.toList.length > 255) &&
    matchesLocalRe local_part.toList &&
    matchesDomainRe domain.toList

/-- Embeds `EmailValidator._check_email_attributes`. -/
def _check_email_attributes (local_part domain : String) : EmailAttributes :=
  { free_email := free_email_providers.contains (pyLower domain)
    role_account := role_prefixes.contains ((pySplit '+' (pyLower local_part)).headD (""))
    disposable := disposable_domains.contains (pyLower domain)
    has_plus_tag := local_part.toList.contains '+'
    no_reply := pyStartsWith ("noreply") (pyLower local_part) ||
                pyStartsWith ("no-reply") (pyLower local_part) }

/-- Embeds `EmailValidator._identify_smtp_provider` (also used by `DNSValidator`,
where the same code is duplicated). -/
def _identify_smtp_provider (mx_record : String) : Option String :=
  let mx_lower := pyLower mx_record
  (smtp_providers.find? (fun p => p.2.any (fun pat => pyInStr pat mx_lower))).map Prod.fst

/-- Outcome of the `smtp.connect()` / `smtp.helo()` phase of `_verify_smtp`
(an environment input). -/
inductive ConnectOutcome
  | ok
  | connTimeout
  | respException (code : Nat) (message : String)
  | otherException (message : String)
deriving DecidableEq, Repr

/-- Outcome of the `smtp.mail()` / `smtp.rcpt()` phase of `_verify_smtp`
(an environment input): a timeout, a raised `SMTPResponseException`, another
exception, or a returned `(code, message)` pair. -/
inductive RcptOutcome
  | cmdTimeout
  | respException (code : Nat) (message : String)
  | otherException (message : String)
  | response (code : Nat) (message : String)
deriving DecidableEq, Repr

/-- The dict returned by `_verify_smtp`:
`{"exists": ..., "reason": ..., "sub_status": ...}` (missing keys are `none`;
`exists` is a Lean keyword, hence `mailboxExists`). -/
structure SmtpCheckResult where
  mailboxExists : Bool
  reason : Option String := none
  sub_status : Option SubStatus := none
deriving DecidableEq, Repr

/-- Stand-in for the text of the `NameError` raised when the
`SMTPResponseException` handler of `_verify_smtp` reads the local variable
`code`, which is unbound when `smtp.rcpt` raised (the CPython text is
"name 'code' is not defined"; the quotes are elided here). -/
def nameErrorReason : String := ("name code is not defined")

/-- The response-code dispatch of `_verify_smtp` on a returned
`(code, message)` pair (validator.py lines 444-463). -/
def smtp_code_dispatch (code : Nat) (message : String) : SmtpCheckResult :=
  if code = 250 then { mailboxExists := true }
  else if code = 450 then
    { mailboxExists := false, reason := some message, sub_status := some .unavailableSmtp }
  else if code = 550 then
    { mailboxExists := false, reason := some message, sub_status := some .rejectedEmail }
  else if code = 553 then
    { mailboxExists := false, reason := some message, sub_status := some .rejectedEmail }
  else if code = 552 then
    { mailboxExists := true, reason := some message }
  else if code = 554 then
    if pyInStr ("dns") (pyLower message) then
      { mailboxExists := false, reason := some message, sub_status := some .invalidDomain }
    else
      { mailboxExists := false, reason := some message, sub_status := some .invalidSmtp }
  else if code = 451 then
    { mailboxExists := false, reason := some message, sub_status := some .invalidSmtp }
  else
    { mailboxExists := false, reason := some message, sub_status := some .invalidSmtp }

/-- The handler `except aiosmtplib.SMTPResponseException` around
`smtp.rcpt` (validator.py lines 423-439).  For codes other than 450/451/550
the handler evaluates the unbound local `code`, raising a `NameError` that
the enclosing generic handler turns into Invalid SMTP with the error text as
the reason. -/
def rcpt_exception_dispatch (code : Nat) (message : String) : SmtpCheckResult :=
  if code = 450 then
    { mailboxExists := false, reason := some message, sub_status := some .unavailableSmtp }
  else if code = 451 then
    { mailboxExists := false, reason := some message, sub_status := some .invalidSmtp }
  else if code = 550 then
    if pyInStr ("spamhaus") (pyLower message) || pyInStr ("blocked") (pyLower message) then
      { mailboxExists := false, reason := some message, sub_status := some .invalidSmtp }
    else
      { mailboxExists := false, reason := some message, sub_status := some .rejectedEmail }
  else
    { mailboxExists := false, reason := some nameErrorReason, sub_status := some .invalidSmtp }

/-- Embeds `EmailValidator._verify_smtp`, as a function of the environment-provided
connect and RCPT outcomes (the provider-specific MX override only changes
which host is contacted, which the environment already abstracts). -/
def _verify_smtp (connect : ConnectOutcome) (rcpt : RcptOutcome) : SmtpCheckResult :=
  match connect with
  | .connTimeout =>
    { mailboxExists := false, reason := some ("Connection timeout"), sub_status := some .timeoutReason }
  | .respException code message =>
    if code = 554 then
      { mailboxExists := false, reason := some message, sub_status := some .invalidDomain }
    else
      { mailboxExists := false, reason := some message, sub_status := some .invalidSmtp }
  | .otherException message =>
    let error_msg := pyLower message
    if pyInStr ("certificate") error_msg || pyInStr ("ssl") error_msg then
      { mailboxExists := false, reason := some message, sub_status := some .invalidSmtp }
    else if pyInStr ("dns") error_msg then
      { mailboxExists := false, reason := some message, sub_status := some .invalidDomain }
    else
      { mailboxExists := false, reason := some message, sub_status := some .invalidSmtp }
  | .ok =>
    match rcpt with
    | .cmdTimeout =>
      { mailboxExists := false, reason := some ("SMTP command timeout"), sub_status := some .timeoutReason }
    | .respException code message => rcpt_exception_dispatch code message
    | .otherException message =>
      { mailboxExists := false, reason := some message, sub_status := some .invalidSmtp }
    | .response code message => smtp_code_dispatch code message

/-- Embeds `EmailValidator._check_catch_all`: connect, HELO, MAIL, then RCPT of a
synthetic non-existent address; any connection or command failure yields
`False`, otherwise the result is `code == 250`. -/
def _check_catch_all (connect_ok : Bool) (rcptResult : Option (Nat × String)) : Bool :=
  if !connect_ok then false
  else
    match rcptResult with
    | none => false
    | some (code, _) => code = 250

/-- Embeds `EmailValidator._calculate_deliverability_score` (validator.py 493-525):
attribute deductions, status penalty, clamp to [0, 100]. -/
def _calculate_deliverability_score (result : EmailValidationResult) : Int :=
  let score : Int := 100
  let score := if result.details.attributes.disposable then score - 40 else score
  let score := if result.details.attributes.catch_all then score - 50 else score
  let score := if result.details.attributes.role_account then score - 20 else score
  let score := if result.details.attributes.free_email then score - 10 else score
  let score := if result.details.attributes.has_plus_tag then score - 10 else score
  let score := if result.details.attributes.no_reply then score - 15 else score
  let score :=
    if result.status = .risky then score - 30
    else if result.status = .unknown then score - 40
    else if result.status = .undeliverable then 0
    else score
  max 0 (min 100 score)

/-- Embeds `EmailValidator._calculate_risk_level` (validator.py 481-491). -/
def _calculate_risk_level (result : EmailValidationResult) : String :=
  let score := _calculate_deliverability_score result
  if score ≥ 80 then ("low")
  else if score ≥ 60 then ("medium")
  else ("high")

/-- Environment of one `validate_email` run: DNS answers, blacklist verdict
and SMTP server behaviour. -/
structure ValidatorEnv where
  mx_timeout : Bool := false
  mx_records : List String := []
  blacklist_result : BlacklistInfo := {}
  smtp_overall_timeout : Bool := false
  smtp_connect : ConnectOutcome := .ok
  smtp_rcpt : RcptOutcome := .response 250 ("OK")
  catch_all_connect_ok : Bool := true
  catch_all_rcpt : Option (Nat × String) := none
deriving Repr

/-- SMTP network activity of one `validate_email` run: how many
address-verification probes (`_verify_smtp` connection attempts) and how many
catch-all probes (`_check_catch_all` connection attempts) were issued. -/
structure SmtpTrace where
  verifyProbes : Nat := 0
  catchAllProbes : Nat := 0
deriving DecidableEq, Repr

/-- The status assigned by `validate_email` when `_verify_smtp` reports a
non-existent mailbox (lines 189-193): Unknown for the transient sub-statuses
Timeout / No Connect / Unavailable SMTP, else Undeliverable. -/
def smtp_failure_status (sub : Option SubStatus) : ValidationStatus :=
  if sub = some .timeoutReason ∨ sub = some .noConnect ∨ sub = some .unavailableSmtp then
    ValidationStatus.unknown
  else ValidationStatus.undeliverable

/-- Finalisation of `validate_email` (lines 222-224): mark valid, then score
the result. -/
def finalizeResult (r : EmailValidationResult) (t : SmtpTrace) :
    EmailValidationResult × SmtpTrace :=
  let r2 := { r with is_valid := true }
  ({ r2 with deliverability_score := _calculate_deliverability_score r2 }, t)


/-- STEP 1 of `validate_email` (lines 92-123): initialise the result record,
check the syntax, split the address.  `Except.error` is an early return. -/
def pipelineStep1 (email : String) :
    Except EmailValidationResult (String × String × EmailValidationResult) :=
  let result0 : EmailValidationResult :=
    { email := email, is_valid := false, status := .unknown,
      details := { general := [("domain", ""), ("reason", "")],
                   sub_status := some .noConnect } }
  if !_validate_format email then
    .error { result0 with
              status := .undeliverable,
              details := { result0.details with
                            general := dictSet result0.details.general ("reason")
                              ("Invalid email format"),
                            sub_status := some .invalidEmail } }
  else
    match pySplitAt2 email with
    | none =>
      .error { result0 with
                status := .undeliverable,
                details := { result0.details with
                              general := dictSet result0.details.general ("reason")
                                ("Invalid email format: Missing @ symbol"),
                              sub_status := some .invalidEmail } }
    | some (local_part, domain) =>
      .ok (local_part, domain,
        { result0 with
           details := { result0.details with
                         general := dictSet result0.details.general ("domain") domain } })

/-- STEP 2 of `validate_email` (lines 125-146): MX lookup with timeout; with
`check_mx` off the MX list stays empty and the step always succeeds. -/
def pipelineStep2 (env : ValidatorEnv) (check_mx : Bool) (r1 : EmailValidationResult) :
    Except EmailValidationResult (List String) :=
  if check_mx && env.mx_timeout then
    .error { r1 with
              status := .unknown,
              details := { r1.details with
                            general := dictSet r1.details.general ("reason") ("DNS lookup timeout"),
                            sub_status := some .timeoutReason } }
  else
    let mx_records := if check_mx then env.mx_records else []
    if check_mx && mx_records.isEmpty then
      .error { r1 with
                status := .undeliverable,
                details := { r1.details with
                              general := dictSet r1.details.general ("reason")
                                ("No MX records found"),
                              sub_status := some .invalidDomain } }
    else
      .ok mx_records

/-- STEP 3 of `validate_email` (lines 148-157): attribute check; only the
disposable flag is acted on, and the computed attributes are NOT stored in
the result.  `some` is the early return. -/
def pipelineStep3 (check_disposable : Bool) (local_part domain : String)
    (r1 : EmailValidationResult) : Option EmailValidationResult :=
  if check_disposable && (_check_email_attributes local_part domain).disposable then
    some { r1 with
            status := .undeliverable,
            details := { r1.details with
                          general := dictSet r1.details.general ("reason")
                            ("Disposable email address"),
                          sub_status := some .disposableEmail } }
  else none

/-- STEP 4 of `validate_email` (lines 159-171): blacklist check; the verdict
is stored into the result, a hit is an early return. -/
def pipelineStep4 (env : ValidatorEnv) (check_blacklist : Bool)
    (r1 : EmailValidationResult) : Except EmailValidationResult EmailValidationResult :=
  let r2 :=
    if check_blacklist then
      { r1 with details := { r1.details with blacklist := env.blacklist_result } }
    else r1
  if check_blacklist && env.blacklist_result.is_blacklisted then
    .error { r2 with
              status := .undeliverable,
              details := { r2.details with
                            general := dictSet r2.details.general ("reason")
                              ("Domain blacklisted: " ++
                                String.intercalate (", ")
                                  env.blacklist_result.blacklist_reasons),
                            sub_status := some .blacklisted } }
  else .ok r2

/-- STEP 5 of `validate_email` (lines 173-197): SMTP verification when
`check_smtp` is set and MX records exist; `some` is the early return
(timeout, or a mailbox reported as non-existent, with the status given by
`smtp_failure_status`). -/
def pipelineStep5 (env : ValidatorEnv) (check_smtp : Bool) (mx_records : List String)
    (r2 : EmailValidationResult) : Option EmailValidationResult :=
  if check_smtp && !mx_records.isEmpty then
    if env.smtp_overall_timeout then
      some { r2 with
              status := .unknown,
              details := { r2.details with
                            general := dictSet r2.details.general ("reason")
                              ("SMTP validation timeout"),
                            sub_status := some .timeoutReason } }
    else
      let smtp_result := _verify_smtp env.smtp_connect env.smtp_rcpt
      if smtp_result.mailboxExists then none
      else
        some { r2 with
                status := smtp_failure_status smtp_result.sub_status,
                details := { r2.details with
                              general := dictSet r2.details.general ("reason")
                                (smtp_result.reason.getD ("Email does not exist")),
                              sub_status :=
                                some (smtp_result.sub_status.getD .rejectedEmail) } }
  else none

/-- STEP 6 and finalisation of `validate_email` (lines 199-227): catch-all
check when `check_catch_all` is set and MX records exist, then mark valid and
score.  The second component is the number of catch-all SMTP probes issued. -/
def pipelineStep6 (env : ValidatorEnv) (check_catch_all : Bool)
    (mx_records : List String) (r2 : EmailValidationResult) :
    (EmailValidationResult × SmtpTrace) × Nat :=
  if check_catch_all && !mx_records.isEmpty then
    let is_catch_all := _check_catch_all env.catch_all_connect_ok env.catch_all_rcpt
    let r3 := { r2 with
                 details := { r2.details with
                               attributes := { r2.details.attributes with
                                                catch_all := is_catch_all } } }
    if is_catch_all then
      (finalizeResult
        { r3 with
           status := .risky,
           risk_level := ("high"),
           details := { r3.details with
                         general := dictSet r3.details.general ("reason") ("Catch-all domain"),
                         sub_status := some .lowDeliverability } }
        {}, 1)
    else
      let r4 := { r3 with
                   status := .deliverable,
                   details := { r3.details with
                                 general := dictSet r3.details.general ("reason")
                                   ("All validations passed"),
                                 sub_status := none } }
      (finalizeResult { r4 with risk_level := _calculate_risk_level r4 } {}, 1)
  else
    let r4 := { r2 with
                 status := .deliverable,
                 details := { r2.details with
                               general := dictSet r2.details.general ("reason")
                                 ("Basic validations passed"),
                               sub_status := none } }
    (finalizeResult { r4 with risk_level := _calculate_risk_level r4 } {}, 0)

/-- Embeds `EmailValidator.validate_email`: the step-by-step pipeline of
validator.py lines 84-234, assembled from the step functions above.
Returns the result together with the SMTP probe trace. -/
def validate_email (env : ValidatorEnv) (email : String)
    (check_mx check_smtp check_disposable check_catch_all check_blacklist : Bool) :
    EmailValidationResult × SmtpTrace :=
  match pipelineStep1 email with
  | .error r => (r, {})
  | .ok (local_part, domain, r1) =>
    match pipelineStep2 env check_mx r1 with
    | .error r => (r, {})
    | .ok mx_records =>
      match pipelineStep3 check_disposable local_part domain r1 with
      | some r => (r, {})
      | none =>
        match pipelineStep4 env check_blacklist r1 with
        | .error r => (r, {})
        | .ok r2 =>
          let verifyProbes : Nat := if check_smtp && !mx_records.isEmpty then 1 else 0
          match pipelineStep5 env check_smtp mx_records r2 with
          | some r => (r, { verifyProbes := verifyProbes })
          | none =>
            let ((r, _), catchAllProbes) := pipelineStep6 env check_catch_all mx_records r2
            (r, { verifyProbes := verifyProbes, catchAllProbes := catchAllProbes })
/-! ## Worker (`app/worker.py`)

In this model, `process_emails` is reduced to the sequence of progress
records it stores.  The body of its chunk loop begins with
`circuit_open = self.validator.circuit_breaker.is_open` (worker.py line 75),
but `EmailValidator.__init__` never defines a `circuit_breaker` attribute, so
every iteration raises `AttributeError` at that first statement; the
chunk-level handler (lines 130-132) catches it and `continue`s, so no
validation runs, `all_results` stays empty, and no `isComplete=false`
snapshot is ever written.  After the loop the final `isComplete=true` record
is stored and published (lines 134-155) before line 158 reads the same
missing attribute again (that second `AttributeError` propagates to
`process_message`, dead-lettering the message, after the final record is
already in the store). -/

/-- Embeds worker.py line 81: `use_smtp = validation_flags.get('check_smtp', True)
and not circuit_open` — the only circuit-breaker gating of the SMTP stage
(reached by no iteration of the shipped worker, see above; the gate itself is
what claim C1 evaluates). -/
def worker_use_smtp (check_smtp circuit_open : Bool) : Bool :=
  check_smtp && !circuit_open

/-- One progress record written by `process_emails`
(`isComplete`, `totalEmails`, `processedCount`). -/
structure ProgressSnapshot where
  isComplete : Bool
  totalEmails : Nat
  processedCount : Nat
deriving DecidableEq, Repr

/-- The chunk loop of `process_emails` (worker.py 72-132): each iteration
raises `AttributeError` at its first statement (line 75, the
`self.validator.circuit_breaker` read — no such attribute exists) and is
swallowed by the `except Exception`/`continue` at lines 130-132, so the loop
stores no snapshot and accumulates no results. -/
def chunkLoopSnapshots : List (List α) → List ProgressSnapshot
  | [] => []
  | _chunk :: rest =>
    -- line 75 raises before the gather and the progress write; 130-132: continue
    chunkLoopSnapshots rest

/-- Embeds `EmailValidationWorker.process_emails`, reduced to its stored
progress records: the emails are chunked (lines 68-69, `WORKER_BATCH_SIZE`
default 5), the chunk loop stores nothing (every iteration fails, see
`chunkLoopSnapshots`), and the final record (lines 134-149) is stored with
`isComplete := true` and `processedCount := len(all_results) = 0`. -/
def process_emails_snapshots (worker_batch_size : Nat) (emails : List String) :
    List ProgressSnapshot :=
  chunkLoopSnapshots (sliceChunks worker_batch_size emails) ++
    [{ isComplete := true, totalEmails := emails.length, processedCount := 0 }]

/-! ## DNS-only validator (`app/services/dns_validator.py`) -/

/-- Embeds `DNSValidator.disposable_domains` (the expanded list; distinct from the
short list of `EmailValidator`). -/
def dns_disposable_domains : List String :=
  ["mailinator.com", "mailinator.net", "mailinator.org", "mailinator.info",
   "guerrillamail.com", "guerrillamail.info", "guerrillamail.biz",
   "guerrillamail.de", "guerrillamail.net", "guerrillamail.org",
   "guerrillamailblock.com", "grr.la",
   "tempmail.com", "throwawaymail.com", "tempmail.net",
   "disposablemail.com", "yopmail.com", "maildrop.cc",
   "temp-mail.org", "fakeinbox.com", "10minutemail.com",
   "trashmail.com", "sharklasers.com", "spam4.me"]

/-- Embeds `DNSValidator.example_domains`. -/
def example_domains : List String :=
  ["example.com", "example.net", "example.org", "test.com", "test.net",
   "test.org", "domain.com", "domain.net", "domain.org"]

/-- Embeds `DNSValidator.common_catchall_providers`. -/
def common_catchall_providers : List (String × List String) :=
  [("google", ["aspmx.l.google.com", "alt1.aspmx.l.google.com", "alt2.aspmx.l.google.com"]),
   ("microsoft", ["mail.protection.outlook.com"]),
   ("zoho", ["mx.zoho.com", "mx2.zoho.com"]),
   ("proton", ["mail.protonmail.ch"])]

/-- The `major_providers` list of `_perform_additional_checks`. -/
def major_providers : List String :=
  ["google", "outlook", "microsoft", "amazon", "protonmail"]

/-- One label of `_is_valid_hostname`: regex `(?!-)[A-Z\d-]{1,63}(?<!-)$`
(ignorecase): 1-63 label characters, no hyphen at either end. -/
def hostnameLabelOk (l : List Char) : Bool :=
  1 ≤ l.length && l.length ≤ 63 && l.all isLabelChar &&
  (match l.head? with | some c => !(c = '-') | none => false) &&
  (match l.getLast? with | some c => !(c = '-') | none => false)

/-- Embeds `DNSValidator._is_valid_hostname`. -/
def _is_valid_hostname (hostname : String) : Bool :=
  if hostname.toList.length > 255 then false
  else (pySplitChar '.' (pyRstripDot hostname).toList).all hostnameLabelOk

/-- The result dict of `DNSValidator._perform_additional_checks`
(four fixed keys). -/
structure AdditionalChecks where
  has_valid_mx_syntax : Bool := false
  mx_has_a_record : Bool := false
  domain_has_backup_mx : Bool := false
  uses_major_provider : Bool := false
deriving DecidableEq, Repr

/-- Embeds `DNSValidator._perform_additional_checks` (the `domain` argument is not
used by any check; A-record lookups come from the environment). -/
def _perform_additional_checks (aRecordsOf : String → List String)
    (mx_records : List (String × Nat)) : AdditionalChecks :=
  let base : AdditionalChecks := { domain_has_backup_mx := mx_records.length > 1 }
  match mx_records with
  | [] => base
  | primary :: _ =>
    { base with
       has_valid_mx_syntax := mx_records.all (fun mx => _is_valid_hostname mx.1)
       mx_has_a_record := !(aRecordsOf primary.1).isEmpty
       uses_major_provider := major_providers.any (fun p => pyInStr p (pyLower primary.1)) }

/-- Number of passed secondary checks (of the fixed four). -/
def additionalChecksCount (c : AdditionalChecks) : Nat :=
  (if c.has_valid_mx_syntax then 1 else 0) +
  (if c.mx_has_a_record then 1 else 0) +
  (if c.domain_has_backup_mx then 1 else 0) +
  (if c.uses_major_provider then 1 else 0)

/-- Embeds `DNSValidator._calculate_confidence_score` in integer hundredths.
The Python value is `0.4*hasMX + 0.2*hasA + 0.2*hasSPF + 0.2*(passed/4)`
rounded to 2 decimals; every addend is a multiple of 0.05, the rounding is
exact, and `int(confidence*100)` (used for the base score) equals this
integer; the comparisons with 0.8 and 0.5 become comparisons with 80 and 50. -/
def _calculate_confidence_score100 (has_mx has_a has_spf : Bool)
    (checks : AdditionalChecks) : Nat :=
  (if has_mx then 40 else 0) + (if has_a then 20 else 0) + (if has_spf then 20 else 0) +
  5 * additionalChecksCount checks

/-- Embeds `DNSValidator._is_likely_catch_all`: provider present in
`common_catchall_providers`, one of its MX patterns occurs in the primary MX,
and the provider is google or microsoft. -/
def _is_likely_catch_all (mx_records : List (String × Nat))
    (provider : Option String) : Bool :=
  match mx_records with
  | [] => false
  | primary :: _ =>
    match provider with
    | none => false
    | some p =>
      match common_catchall_providers.find? (fun q => q.1 = p) with
      | none => false
      | some q =>
        let primary_mx := pyLower primary.1
        q.2.any (fun pattern => pyInStr (pyLower pattern) primary_mx) &&
          (p = ("google") || p = ("microsoft"))

/-- Stable insertion into a preference-sorted MX list. -/
def insertByPref (x : String × Nat) : List (String × Nat) → List (String × Nat)
  | [] => [x]
  | y :: ys => if x.2 < y.2 then x :: y :: ys else y :: insertByPref x ys

/-- Embeds the `sorted(..., key=lambda x: x[1])` call of `_get_mx_records` (stable,
ascending by preference). -/
def sortByPref : List (String × Nat) → List (String × Nat)
  | [] => []
  | x :: xs => insertByPref x (sortByPref xs)

/-- Embeds `DNSValidator._get_spf_record`: the first TXT record starting with
`v=spf1`. -/
def _get_spf_record (txt : List String) : Option String :=
  txt.find? (fun t => pyStartsWith ("v=spf1") t)

/-- Environment of one `DNSValidator.validate` run: raw MX answers
(exchange, preference), TXT answers, and A records per hostname. -/
structure DnsEnv where
  mx : List (String × Nat) := []
  txt : List String := []
  a_records : String → List String := fun _ => []

/-- Embeds `DNSValidator.validate` (dns_validator.py 80-214). -/
def dns_validate (env : DnsEnv) (email : String) : EmailValidationResult :=
  let result0 : EmailValidationResult :=
    { email := email, is_valid := false, status := .unknown,
      details := { general := [("domain", ""), ("reason", "")],
                   sub_status := none } }
  match pySplitAt2 email with
  | none =>
    { result0 with
       status := .undeliverable,
       details := { result0.details with
                     general := dictSet result0.details.general ("reason") ("Invalid email format"),
                     sub_status := some .invalidEmail } }
  | some (local_part, domain) =>
    let r1 := { result0 with
                 details := { result0.details with
                               general := dictSet result0.details.general ("domain") domain } }
    if example_domains.contains (pyLower domain) then
      { r1 with
         status := .risky, is_valid := true, risk_level := ("high"),
         deliverability_score := 40,
         details := { r1.details with
                       general := dictSet r1.details.general ("reason") ("Example/Test domain"),
                       sub_status := some .lowDeliverability } }
    else if dns_disposable_domains.contains (pyLower domain) then
      { r1 with
         status := .undeliverable, is_valid := false, risk_level := ("high"),
         deliverability_score := 0,
         details := { r1.details with
                       general := dictSet r1.details.general ("reason") ("Disposable email domain"),
                       sub_status := some .disposableEmail } }
    else
      let mx_records := sortByPref env.mx
      let spf_record := _get_spf_record env.txt
      let a_records := env.a_records domain
      let additional_checks := _perform_additional_checks env.a_records mx_records
      let mail_server : MailServerInfo :=
        match mx_records with
        | [] => {}
        | primary :: _ =>
          { mx_record := some primary.1
            smtp_provider := _identify_smtp_provider primary.1 }
      let confidence_score :=
        _calculate_confidence_score100 (!mx_records.isEmpty) (!a_records.isEmpty)
          spf_record.isSome additional_checks
      let is_catch_all := _is_likely_catch_all mx_records mail_server.smtp_provider
      -- status assignment (lines 150-170); `is_valid` and `risk_level` keep
      -- their current values in branches that do not assign them
      let status1 :=
        if mx_records.isEmpty then ValidationStatus.undeliverable
        else if confidence_score ≥ 80 then ValidationStatus.deliverable
        else if confidence_score ≥ 50 then ValidationStatus.risky
        else ValidationStatus.undeliverable
      let is_valid1 :=
        if mx_records.isEmpty then false
        else if confidence_score ≥ 80 then true
        else if confidence_score ≥ 50 then true
        else false
      let reason1 :=
        if mx_records.isEmpty then ("No MX records found")
        else if confidence_score ≥ 80 then ("High confidence in domain validity")
        else if confidence_score ≥ 50 then ("Medium confidence in domain validity")
        else ("Low confidence in domain validity")
      let sub1 : Option SubStatus :=
        if mx_records.isEmpty then some .invalidDomain
        else if confidence_score ≥ 80 then none
        else if confidence_score ≥ 50 then some .lowDeliverability
        else some .invalidDomain
      let risk1 :=
        if mx_records.isEmpty then ("high")
        else if confidence_score ≥ 80 then ("low")
        else if confidence_score ≥ 50 then ("medium")
        else ("high")
      -- base score, DNS cap, catch-all override (lines 172-187)
      let base_score := min confidence_score 80
      let base_score := if is_catch_all then min base_score 50 else base_score
      let status2 := if is_catch_all then ValidationStatus.risky else status1
      let reason2 := if is_catch_all then ("Catch-all domain detected via DNS") else reason1
      let sub2 := if is_catch_all then some SubStatus.lowDeliverability else sub1
      let risk2 := if is_catch_all then ("medium") else risk1
      -- attributes are rebuilt wholesale at the end (lines 190-197)
      let attrs : EmailAttributes :=
        { free_email := free_email_providers.contains (pyLower domain)
          role_account := role_prefixes.contains ((pySplit '+' (pyLower local_part)).headD (""))
          disposable := dns_disposable_domains.contains (pyLower domain)
          catch_all := is_catch_all
          has_plus_tag := local_part.toList.contains '+'
          no_reply := pyStartsWith ("noreply") (pyLower local_part) ||
                      pyStartsWith ("no-reply") (pyLower local_part) }
      { r1 with
         status := status2, is_valid := is_valid1, risk_level := risk2,
         deliverability_score := (base_score : Int),
         details := { r1.details with
                       general := dictSet r1.details.general ("reason") reason2,
                       mail_server := mail_server,
                       attributes := attrs,
                       sub_status := sub2 } }

/-- The response-code taxonomy of the AMENDED claim C3, written from its
words: 250 means the mailbox exists; 552 means exists (mailbox full) with the
message kept; 550 and 553 are definitive rejections (Rejected Email); 450 is
transient (Unavailable SMTP, hence status Unknown); 554 is Invalid Domain
when the message mentions dns, else Invalid SMTP; 451, 421 and every other
code are Invalid SMTP (hence status Undeliverable); the raw server message is
preserved as the reason. -/
def C3Spec_return_taxonomy (code : Nat) (message : String) : SmtpCheckResult :=
  if code = 250 then { mailboxExists := true }
  else if code = 552 then { mailboxExists := true, reason := some message }
  else if code = 550 ∨ code = 553 then
    { mailboxExists := false, reason := some message, sub_status := some .rejectedEmail }
  else if code = 450 then
    { mailboxExists := false, reason := some message, sub_status := some .unavailableSmtp }
  else if code = 554 then
    if pyInStr ("dns") (pyLower message) then
      { mailboxExists := false, reason := some message, sub_status := some .invalidDomain }
    else
      { mailboxExists := false, reason := some message, sub_status := some .invalidSmtp }
  else
    { mailboxExists := false, reason := some message, sub_status := some .invalidSmtp }

/-- The exception-path taxonomy of the AMENDED claim C3, written from its
words: a code delivered via `SMTPResponseException` maps 450 to Unavailable
SMTP (Unknown), 451 to Invalid SMTP, 550 to Invalid SMTP when the message
mentions spamhaus or blocked and to Rejected Email otherwise, and any other
code to Invalid SMTP with a `NameError` text as the reason (the handler reads
an unbound variable there). -/
def C3Spec_exception_taxonomy (code : Nat) (message : String) : SmtpCheckResult :=
  if code = 450 then
    { mailboxExists := false, reason := some message, sub_status := some .unavailableSmtp }
  else if code = 451 then
    { mailboxExists := false, reason := some message, sub_status := some .invalidSmtp }
  else if code = 550 then
    if pyInStr ("spamhaus") (pyLower message) || pyInStr ("blocked") (pyLower message) then
      { mailboxExists := false, reason := some message, sub_status := some .invalidSmtp }
    else
      { mailboxExists := false, reason := some message, sub_status := some .rejectedEmail }
  else
    { mailboxExists := false, reason := some nameErrorReason, sub_status := some .invalidSmtp }

/-! ## Theorems -/

theorem sliceChunks_flatten (k : Nat) (xs : List α) :
    (sliceChunks k xs).flatten = if k = 0 then [] else xs := by
  induction xs using sliceChunks.induct k with
  | case1 xs h =>
    rcases h with h | h
    · rw [sliceChunks]
      simp [h]
    · rw [sliceChunks]
      have hx : xs = [] := List.length_eq_zero.mp h
      simp [h, hx]
  | case2 xs h ih =>
    rw [sliceChunks, dif_neg h]
    simp only [not_or] at h
    simp only [List.flatten_cons, ih, if_neg h.1]
    exact List.take_append_drop k _

theorem sliceChunks_mem_length (k : Nat) (xs : List α) (b : List α)
    (hb : b ∈ sliceChunks k xs) : b.length ≤ k := by
  revert hb
  induction xs using sliceChunks.induct k with
  | case1 xs h =>
    intro hb
    rw [sliceChunks, dif_pos h] at hb; cases hb
  | case2 xs h ih =>
    intro hb
    rw [sliceChunks, dif_neg h, List.mem_cons] at hb
    rcases hb with hb | hb
    · subst hb
      simpa using List.length_take_le k xs
    · exact ih hb

theorem recordTimeouts_from_init (ts : Nat → String) (n : Nat) :
    (recordTimeouts ts n {}).failures = n ∧
    (recordTimeouts ts n {}).isOpenStatus = decide (failure_threshold ≤ n) := by
  induction n with
  | zero => simp [recordTimeouts, failure_threshold]
  | succ n ih =>
    obtain ⟨h1, h2⟩ := ih
    simp only [recordTimeouts, record_smtp_timeout, h1, h2]
    constructor
    · trivial
    · by_cases h : failure_threshold ≤ n + 1
      · by_cases h9 : failure_threshold ≤ n
        · simp [h, h9]
        · simp [h, h9]
      · have h9 : ¬ failure_threshold ≤ n := fun hc => h (Nat.le_succ_of_le hc)
        simp [h, h9]

/-- C4: from a closed circuit with zero failures, the status after `n`
`record_smtp_timeout` events is open exactly when `n` has reached the
threshold 10 (so it is still closed after 9 calls and opens at the 10th); no
`record_smtp_timeout` call ever closes an open circuit; and `reset` sets the
failure counter to 0 and the status to closed. -/
theorem C4_circuit_breaker_transitions :
    (∀ (ts : Nat → String) (n : Nat),
      (recordTimeouts ts n {}).isOpenStatus = decide (failure_threshold ≤ n)) ∧
    (∀ ts, (recordTimeouts ts 9 {}).isOpenStatus = false) ∧
    (∀ ts, (recordTimeouts ts 10 {}).isOpenStatus = true) ∧
    (∀ (s : CircuitBreakerState) (now : String),
      s.isOpenStatus = true → (record_smtp_timeout now s).isOpenStatus = true) ∧
    (∀ s : CircuitBreakerState,
      (circuitReset s).failures = 0 ∧ (circuitReset s).isOpenStatus = false) := by
  refine ⟨fun ts n => (recordTimeouts_from_init ts n).2, ?_, ?_, ?_, ?_⟩
  · intro ts
    rw [(recordTimeouts_from_init ts 9).2]
    decide
  · intro ts
    rw [(recordTimeouts_from_init ts 10).2]
    decide
  · intro s now h
    simp [record_smtp_timeout, h]
  · intro s
    exact ⟨rfl, rfl⟩

theorem C4_circuit_breaker_transitions_witness :
    (⟨3, true, none, 7, 2⟩ : CircuitBreakerState).isOpenStatus = true ∧
    (record_smtp_timeout ("t") ⟨3, true, none, 7, 2⟩).isOpenStatus = true :=
  ⟨by decide, C4_circuit_breaker_transitions.2.2.2.1 ⟨3, true, none, 7, 2⟩ ("t") (by decide)⟩

/-- C10: `reset` writes only the failure counter and the status: the lifetime
metrics `total_timeouts` and `total_dns_fallbacks` and the `last_timeout`
timestamp reported by `get_metrics` are identical before and after a reset. -/
theorem C10_reset_frame (s : CircuitBreakerState) :
    (get_metrics (circuitReset s)).total_timeouts = (get_metrics s).total_timeouts ∧
    (get_metrics (circuitReset s)).total_dns_fallbacks = (get_metrics s).total_dns_fallbacks ∧
    (get_metrics (circuitReset s)).last_timeout = (get_metrics s).last_timeout ∧
    (circuitReset s).failures = 0 ∧ (circuitReset s).isOpenStatus = false :=
  ⟨rfl, rfl, rfl, rfl, rfl⟩

/-- C8: `split_into_batches` is a pure function whose batches concatenate
back to the input (hence batch sizes sum to the input length), every batch is
within the size cap of the input-length tier, and an input of at most 20
emails comes back as a single batch. -/
theorem C8_split_into_batches_spec (emails : List String) :
    (split_into_batches emails).flatten = emails ∧
    ((split_into_batches emails).map List.length).sum = emails.length ∧
    (∀ b ∈ split_into_batches emails, b.length ≤ tierCap emails.length) ∧
    (emails.length ≤ 20 → split_into_batches emails = [emails]) := by
  have hflat : (split_into_batches emails).flatten = emails := by
    unfold split_into_batches
    dsimp only
    split
    · simp
    · rw [sliceChunks_flatten]
      split_ifs <;> simp_all
  refine ⟨hflat, ?_, ?_, ?_⟩
  · calc ((split_into_batches emails).map List.length).sum
        = (split_into_batches emails).flatten.length := (List.length_flatten _).symm
      _ = emails.length := by rw [hflat]
  · intro b hb
    unfold split_into_batches at hb
    dsimp only at hb
    unfold tierCap
    split at hb
    · next h =>
      simp only [List.mem_singleton] at hb
      simp [hb, h]
    · next h =>
      rw [if_neg h]
      split_ifs at hb ⊢ <;> simp_all <;> exact sliceChunks_mem_length _ _ _ hb
  · intro h
    unfold split_into_batches
    dsimp only
    rw [if_pos h]

theorem C8_split_into_batches_spec_witness :
    (["a", "b"] : List String) ∈ split_into_batches ["a", "b"] ∧
    (["a", "b"] : List String).length ≤ tierCap (["a", "b"] : List String).length ∧
    split_into_batches (["a", "b"] : List String) = [["a", "b"]] :=
  ⟨by decide,
   (C8_split_into_batches_spec ["a", "b"]).2.2.1 ["a", "b"] (by decide),
   (C8_split_into_batches_spec ["a", "b"]).2.2.2 (by decide)⟩

theorem chunkLoopSnapshots_eq_nil (chunks : List (List α)) :
    chunkLoopSnapshots chunks = [] := by
  induction chunks with
  | nil => rfl
  | cons ch rest ih => exact ih

/-- C9: at the failing input (a one-email batch), the shipped worker stores
exactly one progress record — `isComplete = true` with `processedCount = 0`
while `totalEmails = 1`.  A completed record whose count differs from
`total_emails`, and no `isComplete = false` snapshot at all: every chunk
iteration dies at worker.py line 75 (`EmailValidator` has no
`circuit_breaker` attribute) and the handler skips both the validation and
the per-chunk progress write. -/
theorem C9_worker_never_progresses :
    process_emails_snapshots 5 [("user@gmail.com")] =
      [{ isComplete := true, totalEmails := 1, processedCount := 0 }] := by
  unfold process_emails_snapshots
  rw [chunkLoopSnapshots_eq_nil]
  rfl

theorem pipelineStep1_error_spec (email : String) (r : EmailValidationResult)
    (h : pipelineStep1 email = .error r) :
    r.is_valid = false ∧ r.deliverability_score = 0 := by
  unfold pipelineStep1 at h
  dsimp only at h
  split at h
  · cases h; exact ⟨rfl, rfl⟩
  · split at h
    · cases h; exact ⟨rfl, rfl⟩
    · cases h

theorem pipelineStep1_ok_spec (email lp d : String) (r1 : EmailValidationResult)
    (h : pipelineStep1 email = .ok (lp, d, r1)) :
    r1.is_valid = false ∧ r1.deliverability_score = 0 := by
  unfold pipelineStep1 at h
  dsimp only at h
  split at h
  · cases h
  · split at h
    · cases h
    · cases h; exact ⟨rfl, rfl⟩

theorem pipelineStep2_error_spec (env : ValidatorEnv) (c : Bool)
    (r1 r : EmailValidationResult) (h : pipelineStep2 env c r1 = .error r) :
    r.is_valid = r1.is_valid ∧ r.deliverability_score = r1.deliverability_score := by
  unfold pipelineStep2 at h
  dsimp only at h
  rcases c with _ | _
  · simp only [Bool.false_and, if_false, if_neg] at h
    cases h
  · simp only [Bool.true_and, if_true] at h
    split at h
    · cases h; exact ⟨rfl, rfl⟩
    · split at h
      · cases h; exact ⟨rfl, rfl⟩
      · cases h

theorem pipelineStep2_ok_spec (env : ValidatorEnv) (c : Bool)
    (r1 : EmailValidationResult) (mx : List String) (h : pipelineStep2 env c r1 = .ok mx) :
    mx = (if c then env.mx_records else []) := by
  unfold pipelineStep2 at h
  dsimp only at h
  rcases c with _ | _
  · simp only [Bool.false_and, if_false, if_neg] at h
    cases h; rfl
  · simp only [Bool.true_and, if_true] at h
    split at h
    · cases h
    · split at h
      · cases h
      · cases h; rfl

theorem pipelineStep3_some_spec (c : Bool) (lp d : String)
    (r1 r : EmailValidationResult) (h : pipelineStep3 c lp d r1 = some r) :
    r.is_valid = r1.is_valid ∧ r.deliverability_score = r1.deliverability_score := by
  unfold pipelineStep3 at h
  split at h
  · cases h; exact ⟨rfl, rfl⟩
  · cases h

theorem pipelineStep4_error_spec (env : ValidatorEnv) (c : Bool)
    (r1 r : EmailValidationResult) (h : pipelineStep4 env c r1 = .error r) :
    r.is_valid = r1.is_valid ∧ r.deliverability_score = r1.deliverability_score := by
  unfold pipelineStep4 at h
  dsimp only at h
  split at h
  · split at h <;> cases h <;> exact ⟨rfl, rfl⟩
  · cases h

theorem pipelineStep4_ok_spec (env : ValidatorEnv) (c : Bool)
    (r1 r2 : EmailValidationResult) (h : pipelineStep4 env c r1 = .ok r2) :
    r2.is_valid = r1.is_valid ∧ r2.deliverability_score = r1.deliverability_score := by
  unfold pipelineStep4 at h
  dsimp only at h
  split at h
  · cases h
  · split at h <;> cases h <;> exact ⟨rfl, rfl⟩

theorem pipelineStep5_some_spec (env : ValidatorEnv) (c : Bool) (mx : List String)
    (r2 r : EmailValidationResult) (h : pipelineStep5 env c mx r2 = some r) :
    r.is_valid = r2.is_valid ∧ r.deliverability_score = r2.deliverability_score := by
  unfold pipelineStep5 at h
  dsimp only at h
  split at h
  · split at h
    · cases h; exact ⟨rfl, rfl⟩
    · split at h
      · cases h
      · cases h; exact ⟨rfl, rfl⟩
  · cases h

theorem risk_high_of_catch_all_risky (r : EmailValidationResult)
    (hca : r.details.attributes.catch_all = true) (hst : r.status = .risky) :
    ("high") = (if _calculate_deliverability_score r ≥ 80 then ("low")
              else if _calculate_deliverability_score r ≥ 60 then ("medium") else ("high")) := by
  have hle : _calculate_deliverability_score r ≤ 20 := by
    unfold _calculate_deliverability_score
    dsimp only
    simp only [hca, hst]
    simp only [if_true, if_pos rfl]
    split_ifs <;> decide
  rw [if_neg (by omega), if_neg (by omega)]

theorem pipelineStep6_spec (env : ValidatorEnv) (c : Bool) (mx : List String)
    (r2 : EmailValidationResult) :
    (pipelineStep6 env c mx r2).1.1.is_valid = true ∧
    ((pipelineStep6 env c mx r2).1.1.status = .risky ∨
      (pipelineStep6 env c mx r2).1.1.status = .deliverable) ∧
    (pipelineStep6 env c mx r2).1.1.deliverability_score
      = _calculate_deliverability_score (pipelineStep6 env c mx r2).1.1 ∧
    (pipelineStep6 env c mx r2).1.1.risk_level =
      (if _calculate_deliverability_score (pipelineStep6 env c mx r2).1.1 ≥ 80 then ("low")
       else if _calculate_deliverability_score (pipelineStep6 env c mx r2).1.1 ≥ 60 then ("medium")
       else ("high")) ∧
    (pipelineStep6 env c mx r2).2 = (if c && !mx.isEmpty then 1 else 0) := by
  unfold pipelineStep6
  dsimp only
  split
  · next hgate =>
    split
    · next hca =>
      exact ⟨rfl, Or.inl rfl, rfl, risk_high_of_catch_all_risky _ hca rfl, rfl⟩
    · next hca =>
      exact ⟨rfl, Or.inr rfl, rfl, rfl, rfl⟩
  · next hgate =>
    exact ⟨rfl, Or.inr rfl, rfl, rfl, rfl⟩

/-- Every `validate_email` run either terminates early (invalid, not scored,
no catch-all probe) or is finalised by the scoring stage (valid, Risky or
Deliverable, scored by `_calculate_deliverability_score`, risk level from the
80/60 thresholds, and exactly one catch-all probe when the catch-all stage
was enabled and MX records were present). -/
theorem validate_email_cases (env : ValidatorEnv) (email : String)
    (c1 c2 c3 c4 c5 : Bool) :
    ((validate_email env email c1 c2 c3 c4 c5).1.is_valid = false ∧
     (validate_email env email c1 c2 c3 c4 c5).1.deliverability_score = 0 ∧
     (validate_email env email c1 c2 c3 c4 c5).2.catchAllProbes = 0) ∨
    ((validate_email env email c1 c2 c3 c4 c5).1.is_valid = true ∧
     ((validate_email env email c1 c2 c3 c4 c5).1.status = .risky ∨
      (validate_email env email c1 c2 c3 c4 c5).1.status = .deliverable) ∧
     (validate_email env email c1 c2 c3 c4 c5).1.deliverability_score
       = _calculate_deliverability_score (validate_email env email c1 c2 c3 c4 c5).1 ∧
     (validate_email env email c1 c2 c3 c4 c5).1.risk_level =
       (if _calculate_deliverability_score (validate_email env email c1 c2 c3 c4 c5).1 ≥ 80
        then ("low")
        else if _calculate_deliverability_score (validate_email env email c1 c2 c3 c4 c5).1 ≥ 60
        then ("medium")
        else ("high")) ∧
     (validate_email env email c1 c2 c3 c4 c5).2.catchAllProbes =
       (if c4 && !(if c1 then env.mx_records else []).isEmpty then 1 else 0)) := by
  unfold validate_email
  generalize h1 : pipelineStep1 email = e1
  cases e1 with
  | error r =>
    obtain ⟨hv, hs⟩ := pipelineStep1_error_spec email r h1
    exact Or.inl ⟨hv, hs, rfl⟩
  | ok t =>
    obtain ⟨lp, d, r1⟩ := t
    obtain ⟨hv1, hs1⟩ := pipelineStep1_ok_spec email lp d r1 h1
    dsimp only
    generalize h2 : pipelineStep2 env c1 r1 = e2
    cases e2 with
    | error r =>
      obtain ⟨hv, hs⟩ := pipelineStep2_error_spec env c1 r1 r h2
      exact Or.inl ⟨hv.trans hv1, hs.trans hs1, rfl⟩
    | ok mx =>
      have hmx := pipelineStep2_ok_spec env c1 r1 mx h2
      dsimp only
      generalize h3 : pipelineStep3 c3 lp d r1 = e3
      cases e3 with
      | some r =>
        obtain ⟨hv, hs⟩ := pipelineStep3_some_spec c3 lp d r1 r h3
        exact Or.inl ⟨hv.trans hv1, hs.trans hs1, rfl⟩
      | none =>
        dsimp only
        generalize h4 : pipelineStep4 env c5 r1 = e4
        cases e4 with
        | error r =>
          obtain ⟨hv, hs⟩ := pipelineStep4_error_spec env c5 r1 r h4
          exact Or.inl ⟨hv.trans hv1, hs.trans hs1, rfl⟩
        | ok r2 =>
          obtain ⟨hv2, hs2⟩ := pipelineStep4_ok_spec env c5 r1 r2 h4
          dsimp only
          generalize h5 : pipelineStep5 env c2 mx r2 = e5
          cases e5 with
          | some r =>
            obtain ⟨hv, hs⟩ := pipelineStep5_some_spec env c2 mx r2 r h5
            exact Or.inl ⟨(hv.trans hv2).trans hv1, (hs.trans hs2).trans hs1, rfl⟩
          | none =>
            dsimp only
            obtain ⟨g1, g2, g3, g4, g5⟩ := pipelineStep6_spec env c4 mx r2
            refine Or.inr ⟨g1, g2, g3, g4, ?_⟩
            rw [g5, hmx]

theorem calc_score_formula (r : EmailValidationResult) :
    _calculate_deliverability_score r =
      (if r.status = .undeliverable then 0
       else max 0 (min 100 (100
         - (if r.details.attributes.disposable then (40 : Int) else 0)
         - (if r.details.attributes.catch_all then 50 else 0)
         - (if r.details.attributes.role_account then 20 else 0)
         - (if r.details.attributes.free_email then 10 else 0)
         - (if r.details.attributes.has_plus_tag then 10 else 0)
         - (if r.details.attributes.no_reply then 15 else 0)
         - (if r.status = .risky then 30 else if r.status = .unknown then 40 else 0)))) := by
  obtain ⟨em, iv, st, rl, ds, ⟨g, ⟨fe, ro, di, ca, pl, mf, nr⟩, ms, bl, ss⟩⟩ := r
  cases st <;> cases fe <;> cases ro <;> cases di <;> cases ca <;> cases pl <;> cases nr <;>
    rfl

/-- C2 (amended): in the SMTP validation pipeline, an Undeliverable result
always carries deliverability score 0. -/
theorem C2_smtp_undeliverable_score_zero (env : ValidatorEnv) (email : String)
    (c1 c2 c3 c4 c5 : Bool)
    (h : (validate_email env email c1 c2 c3 c4 c5).1.status = .undeliverable) :
    (validate_email env email c1 c2 c3 c4 c5).1.deliverability_score = 0 := by
  rcases validate_email_cases env email c1 c2 c3 c4 c5 with ⟨_, hs, _⟩ | ⟨_, hst, _, _, _⟩
  · exact hs
  · rcases hst with hst | hst <;> rw [h] at hst <;> cases hst

theorem C2_smtp_undeliverable_score_zero_witness :
    (validate_email {} ("not-an-email") true true true true true).1.status = .undeliverable ∧
    (validate_email {} ("not-an-email") true true true true true).1.deliverability_score = 0 :=
  ⟨by decide, C2_smtp_undeliverable_score_zero {} ("not-an-email") true true true true true (by decide)⟩

/-- C2 counterexample: the DNS-only validator returns an Undeliverable result
(`No MX records found`) whose deliverability score is 40, not 0, for a domain
with no MX records but with an A record and an SPF record: the claimed
invariant fails on `DNSValidator.validate`. -/
theorem C2_dns_undeliverable_positive_score_counterexample :
    (dns_validate
      { mx := [], txt := ["v=spf1 -all"],
        a_records := fun h => if h = ("nomx.example") then ["93.184.216.34"] else [] }
      ("user@nomx.example")).status = .undeliverable ∧
    (dns_validate
      { mx := [], txt := ["v=spf1 -all"],
        a_records := fun h => if h = ("nomx.example") then ["93.184.216.34"] else [] }
      ("user@nomx.example")).deliverability_score = 40 := by
  constructor <;> decide

/-- C6: every result finalised by the scoring stage of the pipeline (the
`is_valid = true` results) carries the claimed score: 100 minus 40 for
disposable, 50 for catch-all, 20 for role account, 10 for free email, 10 for
plus tag, 15 for no-reply (the attribute flags of the returned result), minus
30 for Risky or 40 for Unknown status, forced to 0 for Undeliverable, clamped
to [0, 100]; and the risk level is low / medium / high by the 80/60
thresholds on that score. -/
theorem C6_finalized_score_formula (env : ValidatorEnv) (email : String)
    (c1 c2 c3 c4 c5 : Bool)
    (h : (validate_email env email c1 c2 c3 c4 c5).1.is_valid = true) :
    (validate_email env email c1 c2 c3 c4 c5).1.deliverability_score =
      (if (validate_email env email c1 c2 c3 c4 c5).1.status = .undeliverable then 0
       else max 0 (min 100 (100
         - (if (validate_email env email c1 c2 c3 c4 c5).1.details.attributes.disposable then (40 : Int) else 0)
         - (if (validate_email env email c1 c2 c3 c4 c5).1.details.attributes.catch_all then 50 else 0)
         - (if (validate_email env email c1 c2 c3 c4 c5).1.details.attributes.role_account then 20 else 0)
         - (if (validate_email env email c1 c2 c3 c4 c5).1.details.attributes.free_email then 10 else 0)
         - (if (validate_email env email c1 c2 c3 c4 c5).1.details.attributes.has_plus_tag then 10 else 0)
         - (if (validate_email env email c1 c2 c3 c4 c5).1.details.attributes.no_reply then 15 else 0)
         - (if (validate_email env email c1 c2 c3 c4 c5).1.status = .risky then 30
            else if (validate_email env email c1 c2 c3 c4 c5).1.status = .unknown then 40
            else 0)))) ∧
    (validate_email env email c1 c2 c3 c4 c5).1.risk_level =
      (if (validate_email env email c1 c2 c3 c4 c5).1.deliverability_score ≥ 80 then ("low")
       else if (validate_email env email c1 c2 c3 c4 c5).1.deliverability_score ≥ 60 then ("medium")
       else ("high")) := by
  rcases validate_email_cases env email c1 c2 c3 c4 c5 with ⟨hv, _⟩ | ⟨_, _, hs, hr, _⟩
  · rw [h] at hv; cases hv
  · constructor
    · rw [hs, calc_score_formula]
    · rw [hr, hs]

theorem C6_finalized_score_formula_witness :
    (validate_email
      { mx_records := ["mx1.corpmail.example"], catch_all_rcpt := some (250, "OK") }
      ("user@corpmail.example") true true true true true).1.is_valid = true ∧
    (validate_email
      { mx_records := ["mx1.corpmail.example"], catch_all_rcpt := some (250, "OK") }
      ("user@corpmail.example") true true true true true).1.deliverability_score = 20 ∧
    (validate_email
      { mx_records := ["mx1.corpmail.example"], catch_all_rcpt := some (250, "OK") }
      ("user@corpmail.example") true true true true true).1.risk_level = ("high") := by
  refine ⟨by decide, ?_, ?_⟩
  · have h := (C6_finalized_score_formula
      { mx_records := ["mx1.corpmail.example"], catch_all_rcpt := some (250, "OK") }
      ("user@corpmail.example") true true true true true (by decide)).1
    rw [h]
    decide
  · have h := (C6_finalized_score_formula
      { mx_records := ["mx1.corpmail.example"], catch_all_rcpt := some (250, "OK") }
      ("user@corpmail.example") true true true true true (by decide)).2
    rw [h]
    decide

/-- C5 (amended): the validator never consults the catch-all cache: every
finalised validation with the catch-all stage enabled and MX records present
issues its own SMTP catch-all probe (exactly one), regardless of any earlier
validation of the same domain. -/
theorem C5_every_validation_probes_catch_all (env : ValidatorEnv) (email : String)
    (c1 c2 c3 c4 c5 : Bool)
    (h : (validate_email env email c1 c2 c3 c4 c5).1.is_valid = true) :
    (validate_email env email c1 c2 c3 c4 c5).2.catchAllProbes =
      (if c4 && !(if c1 then env.mx_records else []).isEmpty then 1 else 0) := by
  rcases validate_email_cases env email c1 c2 c3 c4 c5 with ⟨hv, _⟩ | ⟨_, _, _, _, hp⟩
  · rw [h] at hv; cases hv
  · exact hp

theorem C5_every_validation_probes_catch_all_witness :
    (validate_email
      { mx_records := ["mx1.corpmail.example"], catch_all_rcpt := some (550, "no such user") }
      ("alice@corpmail.example") true true true true true).1.is_valid = true ∧
    (validate_email
      { mx_records := ["mx1.corpmail.example"], catch_all_rcpt := some (550, "no such user") }
      ("alice@corpmail.example") true true true true true).2.catchAllProbes = 1 := by
  refine ⟨by decide, ?_⟩
  have h := C5_every_validation_probes_catch_all
    { mx_records := ["mx1.corpmail.example"], catch_all_rcpt := some (550, "no such user") }
    ("alice@corpmail.example") true true true true true (by decide)
  rw [h]
  decide

/-- C5 counterexample: two successive validations against the same domain
(the first SMTP catch-all probe already done and cached per the claim) each
issue one catch-all SMTP probe — two probes in total where the claim allows
at most the first: `_check_catch_all` never reads or writes the
`CacheService` catch-all cache, so the TTL window protects nothing. -/
theorem C5_catch_all_reprobe_counterexample :
    (validate_email
      { mx_records := ["mx1.corpmail.example"], catch_all_rcpt := some (550, "no such user") }
      ("alice@corpmail.example") true true true true true).2.catchAllProbes = 1 ∧
    (validate_email
      { mx_records := ["mx1.corpmail.example"], catch_all_rcpt := some (550, "no such user") }
      ("bob@corpmail.example") true true true true true).2.catchAllProbes = 1 := by
  constructor <;> decide

/-- C1: at the failing input (circuit breaker open, all validation flags on),
the worker gate disables only the `check_smtp` flag; the pipeline then issues
no verification probe but still issues the SMTP catch-all probe, and the
returned result carries no `validation_method` key at all (no code in the
service ever writes one), contradicting both the claim and the repository's
own `tests/test_circuit_breaker.py` expectations. -/
theorem C1_open_circuit_still_probes_and_untagged :
    worker_use_smtp true true = false ∧
    (validate_email
      { mx_records := ["gmail-smtp-in.l.google.com"], catch_all_rcpt := some (550, "User unknown") }
      ("user@gmail.com") true (worker_use_smtp true true) true true true).2.verifyProbes = 0 ∧
    (validate_email
      { mx_records := ["gmail-smtp-in.l.google.com"], catch_all_rcpt := some (550, "User unknown") }
      ("user@gmail.com") true (worker_use_smtp true true) true true true).2.catchAllProbes = 1 ∧
    dictGet (validate_email
      { mx_records := ["gmail-smtp-in.l.google.com"], catch_all_rcpt := some (550, "User unknown") }
      ("user@gmail.com") true (worker_use_smtp true true) true true true).1.details.general
      ("validation_method") = none := by
  refine ⟨rfl, ?_, ?_, ?_⟩ <;> decide

/-- C3 counterexample: an RCPT TO response code 451 (claimed to be a
temporary/transient code mapping to status Unknown) is mapped by the code to
sub-status Invalid SMTP, an `UndeliverableReason`, so the pipeline returns
status Undeliverable, not Unknown. -/
theorem C3_code_451_undeliverable_counterexample :
    (validate_email
      { mx_records := ["mx1.corpmail.example"], smtp_rcpt := .response 451 ("Temporary local error") }
      ("user@corpmail.example") true true true true true).1.status = .undeliverable ∧
    ¬ (validate_email
      { mx_records := ["mx1.corpmail.example"], smtp_rcpt := .response 451 ("Temporary local error") }
      ("user@corpmail.example") true true true true true).1.status = .unknown ∧
    (validate_email
      { mx_records :=  ["mx1.corpmail.example"], smtp_rcpt := .response 451 ("Temporary local error") }
      ("user@corpmail.example") true true true true true).1.details.sub_status
      = some .invalidSmtp := by
  refine ⟨?_, ?_, ?_⟩ <;> decide

/-- C3 (amended): the RCPT TO response-code dispatch and the raised-exception
dispatch agree with the amended taxonomy, and for a mailbox reported as
non-existent on the returned-response path the resulting status is Unknown
exactly for code 450 and Undeliverable for every other code (in particular
451, 421 and 554). -/
theorem C3_rcpt_taxonomy_amended :
    (∀ (code : Nat) (message : String),
      smtp_code_dispatch code message = C3Spec_return_taxonomy code message) ∧
    (∀ (code : Nat) (message : String),
      rcpt_exception_dispatch code message = C3Spec_exception_taxonomy code message) ∧
    (∀ (code : Nat) (message : String),
      (smtp_code_dispatch code message).mailboxExists = false →
      smtp_failure_status (smtp_code_dispatch code message).sub_status =
        (if code = 450 then ValidationStatus.unknown else ValidationStatus.undeliverable)) := by
  refine ⟨?_, ?_, ?_⟩
  · intro code message
    unfold smtp_code_dispatch C3Spec_return_taxonomy
    split_ifs <;> first | rfl | omega
  · intro code message
    unfold rcpt_exception_dispatch C3Spec_exception_taxonomy
    split_ifs <;> first | rfl | omega
  · intro code message hne
    unfold smtp_code_dispatch at hne ⊢
    unfold smtp_failure_status
    split_ifs at hne ⊢ <;> simp_all

theorem C3_rcpt_taxonomy_amended_witness :
    (smtp_code_dispatch 451 ("try again later")).mailboxExists = false ∧
    smtp_failure_status (smtp_code_dispatch 451 ("try again later")).sub_status =
      ValidationStatus.undeliverable := by
  refine ⟨by decide, ?_⟩
  have h := C3_rcpt_taxonomy_amended.2.2 451 ("try again later") (by decide)
  simpa using h

/-- C7 counterexample: a domain whose primary MX is `aspmx.l.google.com`
reaches confidence 1.0 (all checks pass), which the claim maps to status
Deliverable; the code's catch-all heuristic fires (Google pattern), forcing
status Risky and capping the score at 50. -/
theorem C7_catch_all_override_counterexample :
    _calculate_confidence_score100 true true true
      (_perform_additional_checks
        (fun h => if h = ("corpmail.example") then ["93.184.216.34"]
                  else if h = ("aspmx.l.google.com") then ["142.250.27.26"] else [])
        (sortByPref [("aspmx.l.google.com", 1), ("alt1.aspmx.l.google.com", 5)])) = 100 ∧
    (dns_validate
      { mx := [("aspmx.l.google.com", 1), ("alt1.aspmx.l.google.com", 5)],
        txt := ["v=spf1 include:_spf.google.com ~all"],
        a_records := fun h => if h = ("corpmail.example") then ["93.184.216.34"]
                  else if h = ("aspmx.l.google.com") then ["142.250.27.26"] else [] }
      ("user@corpmail.example")).status = .risky ∧
    ¬ (dns_validate
      { mx := [("aspmx.l.google.com", 1), ("alt1.aspmx.l.google.com", 5)],
        txt := ["v=spf1 include:_spf.google.com ~all"],
        a_records := fun h => if h = ("corpmail.example") then ["93.184.216.34"]
                  else if h = ("aspmx.l.google.com") then ["142.250.27.26"] else [] }
      ("user@corpmail.example")).status = .deliverable ∧
    (dns_validate
      { mx := [("aspmx.l.google.com", 1), ("alt1.aspmx.l.google.com", 5)],
        txt := ["v=spf1 include:_spf.google.com ~all"],
        a_records := fun h => if h = ("corpmail.example") then ["93.184.216.34"]
                  else if h = ("aspmx.l.google.com") then ["142.250.27.26"] else [] }
      ("user@corpmail.example")).deliverability_score = 50 := by
  refine ⟨?_, ?_, ?_, ?_⟩ <;> decide

/-- C7 (amended): for a well-formed address whose domain is neither an
example/test domain nor a disposable domain, the DNS-only confidence score is
`0.4*hasMX + 0.2*hasA + 0.2*hasSPF + 0.2*(fraction of the four secondary
checks passed)` (stated in exact hundredths), the deliverability score is the
confidence capped at 80 — further capped at 50 when the catch-all heuristic
fires — and the status is: Risky whenever the catch-all heuristic fires,
otherwise Undeliverable without MX records, Deliverable at confidence at
least 0.8, Risky at confidence in [0.5, 0.8), else Undeliverable. -/
theorem C7_dns_confidence_amended (env : DnsEnv) (email lp d : String)
    (hsplit : pySplitAt2 email = some (lp, d))
    (hex : example_domains.contains (pyLower d) = false)
    (hdisp : dns_disposable_domains.contains (pyLower d) = false) :
    _calculate_confidence_score100 (!(sortByPref env.mx).isEmpty) (!(env.a_records d).isEmpty)
        (_get_spf_record env.txt).isSome
        (_perform_additional_checks env.a_records (sortByPref env.mx)) =
      (if !(sortByPref env.mx).isEmpty then 40 else 0) +
      (if !(env.a_records d).isEmpty then 20 else 0) +
      (if (_get_spf_record env.txt).isSome then 20 else 0) +
      5 * additionalChecksCount (_perform_additional_checks env.a_records (sortByPref env.mx)) ∧
    (dns_validate env email).deliverability_score ≤ 80 ∧
    (dns_validate env email).deliverability_score =
      ((if _is_likely_catch_all (sortByPref env.mx)
            (match sortByPref env.mx with
             | [] => none
             | primary :: _ => _identify_smtp_provider primary.1) then
          min (min (_calculate_confidence_score100 (!(sortByPref env.mx).isEmpty)
            (!(env.a_records d).isEmpty) (_get_spf_record env.txt).isSome
            (_perform_additional_checks env.a_records (sortByPref env.mx))) 80) 50
        else
          min (_calculate_confidence_score100 (!(sortByPref env.mx).isEmpty)
            (!(env.a_records d).isEmpty) (_get_spf_record env.txt).isSome
            (_perform_additional_checks env.a_records (sortByPref env.mx))) 80 : Nat) : Int) ∧
    (dns_validate env email).status =
      (if _is_likely_catch_all (sortByPref env.mx)
            (match sortByPref env.mx with
             | [] => none
             | primary :: _ => _identify_smtp_provider primary.1) then
         ValidationStatus.risky
       else if (sortByPref env.mx).isEmpty then ValidationStatus.undeliverable
       else if _calculate_confidence_score100 (!(sortByPref env.mx).isEmpty)
            (!(env.a_records d).isEmpty) (_get_spf_record env.txt).isSome
            (_perform_additional_checks env.a_records (sortByPref env.mx)) ≥ 80 then
         ValidationStatus.deliverable
       else if _calculate_confidence_score100 (!(sortByPref env.mx).isEmpty)
            (!(env.a_records d).isEmpty) (_get_spf_record env.txt).isSome
            (_perform_additional_checks env.a_records (sortByPref env.mx)) ≥ 50 then
         ValidationStatus.risky
       else ValidationStatus.undeliverable) := by
  have hne : ¬ (example_domains.contains (pyLower d) = true) := by
    intro hc
    rw [hex] at hc
    cases hc
  have hnd : ¬ (dns_disposable_domains.contains (pyLower d) = true) := by
    intro hc
    rw [hdisp] at hc
    cases hc
  unfold dns_validate
  rw [hsplit]
  dsimp only
  rw [if_neg hne, if_neg hnd]
  generalize sortByPref env.mx = mxs
  cases mxs with
  | nil =>
    refine ⟨rfl, ?_, rfl, rfl⟩
    dsimp only
    split_ifs
    · exact_mod_cast le_trans (Nat.min_le_right _ 50) (by norm_num)
    · exact_mod_cast Nat.min_le_right _ 80
  | cons primary rest =>
    refine ⟨rfl, ?_, rfl, rfl⟩
    dsimp only
    split_ifs
    · exact_mod_cast le_trans (Nat.min_le_right _ 50) (by norm_num)
    · exact_mod_cast Nat.min_le_right _ 80

theorem C7_dns_confidence_amended_witness :
    pySplitAt2 ("user@corpmail.example") = some ("user", "corpmail.example") ∧
    (dns_validate
      { mx := [("aspmx.l.google.com", 1), ("alt1.aspmx.l.google.com", 5)],
        txt := ["v=spf1 include:_spf.google.com ~all"],
        a_records := fun h => if h = ("corpmail.example") then ["93.184.216.34"]
                  else if h = ("aspmx.l.google.com") then ["142.250.27.26"] else [] }
      ("user@corpmail.example")).status = .risky := by
  refine ⟨by decide, ?_⟩
  have h := (C7_dns_confidence_amended
    { mx := [("aspmx.l.google.com", 1), ("alt1.aspmx.l.google.com", 5)],
      txt := ["v=spf1 include:_spf.google.com ~all"],
      a_records := fun h => if h = ("corpmail.example") then ["93.184.216.34"]
                else if h = ("aspmx.l.google.com") then ["142.250.27.26"] else [] }
    ("user@corpmail.example") ("user") ("corpmail.example")
    (by decide) (by decide) (by decide)).2.2.2
  rw [h]
  decide
